import Mathlib

/-!
Verification of the core pipeline of `lib_scanner.py` (AI Disaster Scanner):
SIRA layer/metric classification, severity estimation, industry detection,
audit-angle generation, title deduplication, and aggregation.

The Python code matches hand-written regular expressions against lower-cased
text with `re.search`.  The patterns only use: literal characters, `\s+`,
`\s*`, `.` (any char except newline), `.*`, `(...|...)` alternation,
`(...)?` / `.?` optionality, and `\b` word boundaries.  We embed exactly that
fragment as a small syntax `Rx` together with a backtracking matcher that
enumerates every reachable state, so `rsearch r s = true` iff some substring
match exists — the same observable behaviour as `re.search` used as a
boolean test.
-/

/-- ASCII lower-casing, as `str.lower()` acts on the ASCII range
(all inputs considered here are ASCII). -/
def lowerChar (c : Char) : Char :=
  if 'A' ≤ c ∧ c ≤ 'Z' then Char.ofNat (c.toNat + 32) else c

/-- The character class `\s` of Python `re`: space, tab, newline,
carriage return, vertical tab, form feed. -/
def isSpaceCh (c : Char) : Bool :=
  c = ' ' || c = '\t' || c = '\n' || c = '\x0d' || c = '\x0b' || c = '\x0c'

/-- The word-character class `\w` of Python `re` (ASCII range):
letters, digits, underscore.  Used for `\b` word boundaries. -/
def isWordCh (c : Char) : Bool :=
  ('a' ≤ c && c ≤ 'z') || ('A' ≤ c && c ≤ 'Z') || ('0' ≤ c && c ≤ '9') || c = '_'

/-- The regular-expression fragment used by `lib_scanner.py`. -/
inductive Rx : Type where
  | fail : Rx
  | eps : Rx
  | lit : Char → Rx
  | anyc : Rx
  | dotstar : Rx
  | sp1 : Rx
  | sp0 : Rx
  | wb : Rx
  | alt : Rx → Rx → Rx
  | seq : Rx → Rx → Rx
  | opt : Rx → Rx
  deriving DecidableEq, Repr

/-- States reachable by consuming zero or more whitespace characters
(`\s*`).  A state is the character just before the remaining input
(for `\b`) together with the remaining input. -/
def spStates : Option Char → List Char → List (Option Char × List Char)
  | prev, [] => [(prev, [])]
  | prev, c :: rest =>
    (prev, c :: rest) :: (if isSpaceCh c then spStates (some c) rest else [])

/-- States reachable by consuming zero or more non-newline characters
(`.*`, Python `.` without `DOTALL`). -/
def dotStates : Option Char → List Char → List (Option Char × List Char)
  | prev, [] => [(prev, [])]
  | prev, c :: rest =>
    (prev, c :: rest) :: (if c = '\n' then [] else dotStates (some c) rest)

/-- Whether a `\b` word boundary holds between the previous character and
the head of the remaining input. -/
def atWordBoundary (prev : Option Char) (s : List Char) : Bool :=
  let before := match prev with | none => false | some c => isWordCh c
  let after := match s with | [] => false | c :: _ => isWordCh c
  before != after

/-- All states reachable by matching `r` against a prefix of `s`
(with `prev` the character immediately before `s`, for `\b`). -/
def runRx : Rx → Option Char → List Char → List (Option Char × List Char)
  | .fail, _, _ => []
  | .eps, prev, s => [(prev, s)]
  | .lit c, _, s =>
    match s with
    | [] => []
    | x :: rest => if x = c then [(some x, rest)] else []
  | .anyc, _, s =>
    match s with
    | [] => []
    | x :: rest => if x = '\n' then [] else [(some x, rest)]
  | .dotstar, prev, s => dotStates prev s
  | .sp0, prev, s => spStates prev s
  | .sp1, _, s =>
    match s with
    | [] => []
    | x :: rest => if isSpaceCh x then spStates (some x) rest else []
  | .wb, prev, s => if atWordBoundary prev s then [(prev, s)] else []
  | .alt a b, prev, s => runRx a prev s ++ runRx b prev s
  | .seq a b, prev, s => (runRx a prev s).flatMap (fun st => runRx b st.1 st.2)
  | .opt a, prev, s => (prev, s) :: runRx a prev s

/-- Search for a match of `r` starting at any position of `s`, tracking the
previous character; the semantics of `re.search` used as a boolean test. -/
def searchFrom (r : Rx) : Option Char → List Char → Bool
  | prev, s =>
    !(runRx r prev s).isEmpty ||
      (match s with
       | [] => false
       | c :: rest => searchFrom r (some c) rest)

/-- `rsearch r s` iff the pattern `r` matches somewhere inside `s`. -/
def rsearch (r : Rx) (s : List Char) : Bool := searchFrom r none s

/-- A sequence of literal characters. -/
def rstr (s : String) : Rx := s.data.foldr (fun c r => Rx.seq (Rx.lit c) r) Rx.eps

/-- Concatenation of a list of patterns. -/
def rcat (l : List Rx) : Rx := l.foldr Rx.seq Rx.eps

/-- Alternation `(p1|p2|...)` of a list of patterns. -/
def ralts (l : List Rx) : Rx := l.foldr Rx.alt Rx.fail

-- Shorthand for the `Rx` constructors, to keep the catalogs readable.

def rsp : Rx := Rx.sp1

def rsp0 : Rx := Rx.sp0

def rdot : Rx := Rx.dotstar

def rany : Rx := Rx.anyc

def rwb : Rx := Rx.wb

def ropt (r : Rx) : Rx := Rx.opt r

/-- `LAYER_SIGNALS`: the SIRA-layer pattern catalog of `lib_scanner.py`,
in declaration order L1..L7.  Each Lean pattern is a direct transliteration
of the Python regex given in the adjacent comment. -/
def LAYER_SIGNALS : List (String × List Rx) := [
  ("L1", [
    rcat [rstr "energy", rsp, rstr "consumption"],          -- energy\s+consumption
    rcat [rstr "power", rsp, rstr "grid"],                  -- power\s+grid
    rcat [rstr "data", rsp, rstr "cent", ralts [rstr "er", rstr "re"], rsp,
      ralts [rstr "power", rstr "energy", rstr "outage"]],  -- data\s+cent(er|re)\s+(power|energy|outage)
    rcat [rstr "gpu", rsp, rstr "shortage"],                -- gpu\s+shortage
    rcat [rstr "compute", rsp, rstr "cost"],                -- compute\s+cost
    rcat [rstr "carbon", rsp, rstr "footprint", rsp, rstr "ai"],  -- carbon\s+footprint\s+ai
    rcat [rstr "electricity", rsp, rstr "demand", rsp, rstr "ai"],  -- electricity\s+demand\s+ai
    rcat [rstr "cooling", rsp, ralts [rstr "fail", rstr "cost"]]  -- cooling\s+(fail|cost)
  ]),
  ("L2", [
    rcat [rstr "cloud", rsp, rstr "outage"],                -- cloud\s+outage
    rcat [rstr "aws", rsp, ralts [rstr "outage", rstr "down"]],  -- aws\s+(outage|down)
    rcat [rstr "azure", rsp, ralts [rstr "outage", rstr "down"]],  -- azure\s+(outage|down)
    rcat [rstr "gcp", rsp, ralts [rstr "outage", rstr "down"]],  -- gcp\s+(outage|down)
    rcat [rstr "gpu", rsp, rstr "supply"],                  -- gpu\s+supply
    rcat [rstr "chip", rsp, rstr "shortage"],               -- chip\s+shortage
    rstr "tsmc",                                            -- tsmc
    rcat [rstr "nvidia", rsp,
      ralts [rstr "shortage", rstr "supply", rstr "dominan"]],  -- nvidia\s+(shortage|supply|dominan)
    rcat [rstr "infrastructure", rsp, rstr "fail"],         -- infrastructure\s+fail
    rcat [rstr "server", rsp,
      ralts [rstr "crash", rstr "outage", rstr "fail"]],    -- server\s+(crash|outage|fail)
    rcat [rstr "api", rsp, ralts [rstr "outage", rstr "down"]]  -- api\s+(outage|down)
  ]),
  ("L3", [
    rcat [rstr "transformer", rsp,
      ralts [rstr "limit", rstr "plateau", rstr "bottleneck"]],  -- transformer\s+(limit|plateau|bottleneck)
    rcat [rstr "scaling", rsp, rstr "law", rsp,
      ralts [rstr "plateau", rstr "limit", rstr "diminish"]],  -- scaling\s+law\s+(plateau|limit|diminish)
    rcat [rstr "architecture", rsp, ralts [rstr "flaw", rstr "limit"]],  -- architecture\s+(flaw|limit)
    rcat [rstr "model", rsp, rstr "collapse"],              -- model\s+collapse
    rcat [rstr "training", rsp, rstr "on", rsp,
      ralts [rstr "ai", rstr "synthetic"], rsp, rstr "data"],  -- training\s+on\s+(ai|synthetic)\s+data
    rcat [rstr "paradigm", rsp, ralts [rstr "shift", rstr "lock"]]  -- paradigm\s+(shift|lock)
  ]),
  ("L4", [
    rstr "hallucin",                                        -- hallucin
    rstr "confabul",                                        -- confabul
    rcat [rstr "fabricat", ralts [rstr "ed", rstr "ing"], rsp,
      ralts [rstr "information", rstr "citation", rstr "reference", rstr "fact"]],
      -- fabricat(ed|ing)\s+(information|citation|reference|fact)
    rcat [rstr "bias", ropt (rstr "ed"), rsp,
      ralts [rstr "output", rstr "model", rstr "algorithm",
        rcat [rstr "training", rsp, rstr "data"]]],
      -- bias(ed)?\s+(output|model|algorithm|training\s+data)
    rcat [rstr "incorrect", rsp,
      ralts [rstr "information", rstr "answer", rstr "response", rstr "advice"]],
      -- incorrect\s+(information|answer|response|advice)
    rcat [rstr "false", rsp,
      ralts [rstr "information", rstr "claim", rstr "answer"]],  -- false\s+(information|claim|answer)
    rstr "misinformation",                                  -- misinformation
    rcat [rstr "wrong", rsp,
      ralts [rstr "answer", rstr "information", rstr "advice"]],  -- wrong\s+(answer|information|advice)
    rcat [rstr "inaccura", ralts [rstr "te", rstr "cy"]],   -- inaccura(te|cy)
    rcat [rstr "ai", rsp,
      ralts [rstr "error", rstr "mistake", rstr "blunder", rstr "gaffe"]],
      -- ai\s+(error|mistake|blunder|gaffe)
    rstr "deepfake",                                        -- deepfake
    rcat [rstr "alignment", rsp, ralts [rstr "fail", rstr "problem"]],  -- alignment\s+(fail|problem)
    rstr "jailbreak"                                        -- jailbreak
  ]),
  ("L5", [
    rcat [rstr "data", rsp, ralts [rstr "leak", rstr "breach", rstr "expos"], rdot, rwb,
      ralts [rstr "ai", rstr "chatbot", rstr "llm", rstr "gpt", rstr "claude", rstr "gemini"], rwb],
      -- data\s+(leak|breach|expos).*\b(ai|chatbot|llm|gpt|claude|gemini)\b
    rcat [ralts [rstr "ai", rstr "chatbot", rstr "llm", rstr "gpt"], rdot,
      rstr "data", rsp, ralts [rstr "leak", rstr "breach", rstr "expos"]],
      -- (ai|chatbot|llm|gpt).*data\s+(leak|breach|expos)
    rcat [rstr "prompt", rsp, rstr "injection"],            -- prompt\s+injection
    rcat [rstr "api", rsp, rstr "deprecat"],                -- api\s+deprecat
    rcat [rstr "vendor", rsp, rstr "lock"],                 -- vendor\s+lock
    rcat [rstr "chatbot", rsp,
      ralts [rstr "fail", rstr "error", rstr "wrong", rstr "mislead", rstr "sued", rstr "lawsuit"]],
      -- chatbot\s+(fail|error|wrong|mislead|sued|lawsuit)
    rcat [rstr "ai", rsp, rstr "tool", rsp,
      ralts [rstr "fail", rstr "error", rstr "bug", rstr "crash"]],
      -- ai\s+tool\s+(fail|error|bug|crash)
    rcat [rstr "shadow", rsp, rstr "ai"],                   -- shadow\s+ai
    rcat [ralts [rstr "copyright", rstr "ip"], rsp,
      ralts [rstr "infring", rstr "violat", rstr "lawsuit"], rdot, rstr "ai"]
      -- (copyright|ip)\s+(infring|violat|lawsuit).*ai
  ]),
  ("L6", [
    rcat [rstr "autonom", ralts [rstr "ous", rstr "y"], rsp,
      ralts [rstr "vehicle", rstr "car", rstr "driv", rstr "crash", rstr "accident"]],
      -- autonom(ous|y)\s+(vehicle|car|driv|crash|accident)
    rcat [rstr "self", rany, rstr "driving", rsp,
      ralts [rstr "crash", rstr "accident", rstr "fail", rstr "recall"]],
      -- self.driving\s+(crash|accident|fail|recall)
    rcat [rstr "ai", rsp,
      ralts [rstr "medical", rstr "healthcare", rstr "diagnos", rstr "treatment"], rsp0,
      ralts [rstr "error", rstr "fail", rstr "wrong", rstr "harm", rstr "death"]],
      -- ai\s+(medical|healthcare|diagnos|treatment)\s*(error|fail|wrong|harm|death)
    rcat [rstr "algorithm", ropt (rstr "ic"), rsp,
      ralts [rstr "deny", rstr "denial", rstr "reject", rstr "discriminat", rstr "bias"]],
      -- algorithm(ic)?\s+(deny|denial|reject|discriminat|bias)
    rcat [rstr "ai", rsp, ralts [rstr "hiring", rstr "recruit", rstr "hr"], rsp0,
      ralts [rstr "bias", rstr "discriminat", rstr "lawsuit", rstr "fail"]],
      -- ai\s+(hiring|recruit|hr)\s*(bias|discriminat|lawsuit|fail)
    rcat [rstr "ai", rsp, rstr "weapon"],                   -- ai\s+weapon
    rcat [rstr "drone", rsp, ralts [rstr "strike", rstr "attack", rstr "fail"], rdot, rstr "ai"],
      -- drone\s+(strike|attack|fail).*ai
    rcat [rstr "robotic", rsp, ralts [rstr "surgery", rstr "procedure"], rsp0,
      ralts [rstr "fail", rstr "error", rstr "harm"]],
      -- robotic\s+(surgery|procedure)\s*(fail|error|harm)
    rcat [rstr "cascading", rsp, rstr "fail"],              -- cascading\s+fail
    rcat [rstr "liability", rsp, rstr "gap"]                -- liability\s+gap
  ]),
  ("L7", [
    rcat [ralts [rstr "ai", rstr "chatbot"], rsp0,
      ralts [rstr "dependency", rstr "addict", rstr "attachment", rstr "relian"]],
      -- (ai|chatbot)\s*(dependency|addict|attachment|relian)
    rstr "deskill",                                         -- deskill
    rcat [rstr "cognitive", rsp,
      ralts [rstr "atrophy", rstr "decline", rstr "offload", rstr "dependency"]],
      -- cognitive\s+(atrophy|decline|offload|dependency)
    rcat [ralts [rstr "replac", rstr "eliminat", rcat [rstr "lay", rsp0, rstr "off"],
        rstr "fire", rstr "cut"], rdot, rwb,
      ralts [rstr "worker", rstr "employee", rstr "staff", rstr "job", rstr "human"], rwb,
      rdot, rwb, rstr "ai", rwb],
      -- (replac|eliminat|lay\s*off|fire|cut).*\b(worker|employee|staff|job|human)\b.*\bai\b
    rcat [rwb, rstr "ai", rwb, rdot,
      ralts [rstr "replac", rstr "eliminat", rcat [rstr "lay", rsp0, rstr "off"],
        rstr "fire", rstr "cut"], rdot, rwb,
      ralts [rstr "worker", rstr "employee", rstr "staff", rstr "job", rstr "human"], rwb],
      -- \bai\b.*(replac|eliminat|lay\s*off|fire|cut).*\b(worker|employee|staff|job|human)\b
    rcat [ralts [rcat [rstr "mental", rsp, rstr "health"], rstr "suicide",
        rcat [rstr "self", rany, rstr "harm"]], rdot, rwb,
      ralts [rstr "ai", rstr "chatbot"], rwb],
      -- (mental\s+health|suicide|self.harm).*\b(ai|chatbot)\b
    rcat [rwb, ralts [rstr "ai", rstr "chatbot"], rwb, rdot,
      ralts [rcat [rstr "mental", rsp, rstr "health"], rstr "suicide",
        rcat [rstr "self", rany, rstr "harm"]]],
      -- \b(ai|chatbot)\b.*(mental\s+health|suicide|self.harm)
    rcat [rstr "emotional", rsp0,
      ralts [rstr "support", rstr "companion", rstr "relationship"], rdot, rstr "ai"],
      -- emotional\s*(support|companion|relationship).*ai
    rcat [rstr "ai", rsp, rstr "companion"],                -- ai\s+companion
    rcat [rstr "trust", rsp, ralts [rstr "miscalibr", rstr "erosion", rstr "crisis"],
      rdot, rstr "ai"],                                     -- trust\s+(miscalibr|erosion|crisis).*ai
    rcat [rstr "human", rsp, rstr "oversight", rsp0,
      ralts [rstr "fail", rstr "lack", rstr "absent"]],     -- human\s+oversight\s*(fail|lack|absent)
    rcat [rstr "ai", rsp, rstr "replace", rdot, rstr "human", rsp, rstr "judgment"],
      -- ai\s+replace.*human\s+judgment
    rcat [rstr "over", ropt rany, rstr "relian", ropt (rstr "ce"), rdot, rwb, rstr "ai", rwb]
      -- over.?relian(ce)?.*\bai\b
  ])
]

/-- `METRIC_SIGNALS`: the SIRA-metric pattern catalog of `lib_scanner.py`,
in declaration order MY, CRR, BAI, HR, HHI, MG. -/
def METRIC_SIGNALS : List (String × List Rx) := [
  ("MY", [
    rcat [rstr "roi", rwb],                                 -- roi\b
    rcat [rstr "cost", rsp, rstr "saving"],                 -- cost\s+saving
    rstr "productivity",                                    -- productivity
    rstr "efficien",                                        -- efficien
    rstr "value",                                           -- value
    rstr "spend"                                            -- spend
  ]),
  ("CRR", [
    rstr "deskill",                                         -- deskill
    rcat [rstr "without", rsp, rstr "ai"],                  -- without\s+ai
    rcat [rstr "human", rsp,
      ralts [rstr "capability", rstr "skill", rstr "competenc"]],
      -- human\s+(capability|skill|competenc)
    rcat [rstr "cognitive", rsp, rstr "reserve"]            -- cognitive\s+reserve
  ]),
  ("BAI", [
    rstr "dependen",                                        -- dependen
    rcat [rstr "outage", rsp, rstr "impact"],               -- outage\s+impact
    rcat [rstr "can", ropt rany, rstr "t", rsp, rstr "function", rsp, rstr "without"],
      -- can.?t\s+function\s+without
    rcat [rstr "single", rsp, rstr "point", rsp, rstr "of", rsp, rstr "fail"]
      -- single\s+point\s+of\s+fail
  ]),
  ("HR", [
    rstr "hallucin",                                        -- hallucin
    rstr "unverified",                                      -- unverified
    rstr "fabricat",                                        -- fabricat
    rstr "incorrect",                                       -- incorrect
    rstr "inaccura",                                        -- inaccura
    rcat [rstr "wrong", rsp, rstr "answer"]                 -- wrong\s+answer
  ]),
  ("HHI", [
    rcat [rstr "vendor", rsp,
      ralts [rstr "lock", rstr "concentrat", rstr "single"]],
      -- vendor\s+(lock|concentrat|single)
    rcat [rstr "single", rsp, rstr "provider"],             -- single\s+provider
    rcat [ralts [rstr "aws", rstr "azure", rstr "openai", rstr "google"], rsp, rstr "only"]
      -- (aws|azure|openai|google)\s+only
  ]),
  ("MG", [
    rstr "systemic",                                        -- systemic
    rcat [rstr "multiple", rsp, ralts [rstr "fail", rstr "risk", rstr "layer"]],
      -- multiple\s+(fail|risk|layer)
    rstr "compound",                                        -- compound
    rstr "cascad"                                           -- cascad
  ])
]

/-- The `critical_patterns` of `estimate_severity`. -/
def critical_patterns : List Rx := [
  rstr "death",                                             -- death
  rstr "killed",                                            -- killed
  rstr "fatal",                                             -- fatal
  rstr "suicide",                                           -- suicide
  rcat [rstr "class", ropt rany, rstr "action"],            -- class.?action
  rstr "billion"                                            -- billion
]

/-- The `high_patterns` of `estimate_severity`. -/
def high_patterns : List Rx := [
  rstr "lawsuit",                                           -- lawsuit
  rstr "sued",                                              -- sued
  rstr "recall",                                            -- recall
  rstr "banned",                                            -- banned
  rstr "fired",                                             -- fired
  rcat [rstr "million", rsp, rstr "dollar"],                -- million\s+dollar
  rcat [rstr "million", rsp, rstr "loss"]                   -- million\s+loss
]

/-- The `medium_patterns` of `estimate_severity`. -/
def medium_patterns : List Rx := [
  rstr "error",                                             -- error
  rstr "mistake",                                           -- mistake
  rstr "wrong",                                             -- wrong
  rstr "inaccura",                                          -- inaccura
  rstr "mislead",                                           -- mislead
  rstr "fail"                                               -- fail
]

/-- The `industries` catalog of `detect_industry`, in declaration order. -/
def INDUSTRY_SIGNALS : List (String × List Rx) := [
  ("Healthcare", [
    rstr "health", rstr "medical", rstr "hospital", rstr "patient",
    rstr "pharma", rstr "drug", rstr "medicare", rstr "diagnos"
  ]),
  ("Finance", [
    rstr "bank", rstr "financ", rstr "insur", rstr "trading",
    rstr "invest", rstr "fintech", rstr "payment", rstr "loan"
  ]),
  ("Automotive", [
    rcat [rstr "self", rany, rstr "driv"],                  -- self.driv
    rcat [rstr "autonom", rdot, rstr "vehicle"],            -- autonom.*vehicle
    rstr "tesla", rstr "waymo", rstr "cruise",
    rcat [rstr "car", rsp, rstr "crash"]                    -- car\s+crash
  ]),
  ("Legal", [
    rstr "lawyer", rstr "legal",
    rcat [rstr "law", rsp, rstr "firm"],                    -- law\s+firm
    rstr "court", rstr "judge", rstr "attorney"
  ]),
  ("Education", [
    rstr "school", rstr "student", rstr "university",
    rstr "educat", rstr "academic", rstr "cheating"
  ]),
  ("Retail", [
    rstr "retail",
    rcat [rstr "e", ropt rany, rstr "commerce"],            -- e.?commerce
    rstr "shopping", rstr "consumer",
    rcat [rstr "customer", rsp, rstr "service"]             -- customer\s+service
  ]),
  ("Media", [
    rstr "news", rstr "journal", rstr "publish", rstr "media",
    rcat [rstr "content", rsp, rstr "moderat"]              -- content\s+moderat
  ]),
  ("Tech", [
    rstr "software", rstr "saas", rstr "cloud", rstr "platform",
    rstr "developer", rstr "startup"
  ]),
  ("Government", [
    rstr "government",
    rcat [rstr "public", rsp, rstr "sector"],               -- public\s+sector
    rstr "polic", rstr "military", rstr "defense", rstr "regulat"
  ]),
  ("HR/Recruitment", [
    rstr "hiring", rstr "recruit", rstr "resume",
    rcat [rstr "hr", rwb],                                  -- hr\b
    rstr "workforce", rstr "employ"
  ])
]

/-- Lower-cased character list of a string: the `text.lower()` step shared
by all classifiers. -/
def lowerText (s : String) : List Char := s.data.map lowerChar

/-- Whether any pattern of a catalog entry matches the (already lower-cased)
text: the inner `for pattern in patterns: if re.search(...): ... break` loop. -/
def entryMatches (t : List Char) (entry : String × List Rx) : Bool :=
  entry.2.any (fun r => rsearch r t)

/-- `classify_sira_layers` of `lib_scanner.py`: collect, in catalog order,
every layer one of whose patterns matches the lower-cased text; fall back to
`["L4"]` when none does. -/
def classify_sira_layers (text : String) : List String :=
  let t := lowerText text
  let matched := (LAYER_SIGNALS.filter (entryMatches t)).map Prod.fst
  if matched = [] then ["L4"] else matched

/-- `classify_sira_metrics` of `lib_scanner.py`: same algorithm over the
metric catalog, with fallback `["MG"]`. -/
def classify_sira_metrics (text : String) : List String :=
  let t := lowerText text
  let matched := (METRIC_SIGNALS.filter (entryMatches t)).map Prod.fst
  if matched = [] then ["MG"] else matched

/-- `estimate_severity` of `lib_scanner.py`: tiers checked strictly in the
order Critical, High, Medium; `"Low"` when no tier matches. -/
def estimate_severity (text : String) : String :=
  let t := lowerText text
  if critical_patterns.any (fun r => rsearch r t) then "Critical"
  else if high_patterns.any (fun r => rsearch r t) then "High"
  else if medium_patterns.any (fun r => rsearch r t) then "Medium"
  else "Low"

/-- `detect_industry` of `lib_scanner.py`: first industry in catalog order
with any matching pattern, else the catch-all. -/
def detect_industry (text : String) : String :=
  let t := lowerText text
  match INDUSTRY_SIGNALS.find? (entryMatches t) with
  | some entry => entry.1
  | none => "General/Cross-Industry"

/-- The `AIDisasterEvent` dataclass of `lib_scanner.py`, with its field
defaults. -/
structure AIDisasterEvent where
  title : String
  source : String
  url : String
  published : String
  summary : String
  sira_layers : List String := []
  sira_metrics : List String := []
  severity : String := "Medium"
  industry : String := "Unknown"
  medha_audit_angle : String := ""
  deriving DecidableEq, Repr

/-- `generate_audit_angle` of `lib_scanner.py`: a fixed ordered checklist of
label-triggered sentences; at most the first two triggered are joined with
". " and terminated with ".".  The fallback names the matched layers. -/
def generate_audit_angle (event : AIDisasterEvent) : String :=
  let angles :=
    (if "L7" ∈ event.sira_layers then
      ["Human cognitive dependency was the unexamined risk"] else []) ++
    (if "HR" ∈ event.sira_metrics then
      ["Unverified AI output was carried as completed work — phantom value"] else []) ++
    (if "HHI" ∈ event.sira_metrics then
      ["Single-vendor concentration created fragility"] else []) ++
    (if "L6" ∈ event.sira_layers then
      ["AI was integrated into critical decisions without adequate human override"] else []) ++
    (if "BAI" ∈ event.sira_metrics then
      ["High beta-AI: productivity collapsed when AI failed"] else []) ++
    (if "CRR" ∈ event.sira_metrics then
      ["CRR was never measured — nobody knew if the team could function without AI"] else []) ++
    (if "MY" ∈ event.sira_metrics then
      ["Gross multiplier looked impressive; risk-adjusted return tells a different story"] else [])
  let angles :=
    if angles = [] then
      ["SIRA layers " ++ String.intercalate ", " event.sira_layers ++
        " exposed — standard risk assessment missed this"]
    else angles
  String.intercalate ". " (angles.take 2) ++ "."

/-- `_classify_event` of `lib_scanner.py`: fill the classification fields of
an event from its combined text. -/
def classifyEvent (event : AIDisasterEvent) (combined : String) : AIDisasterEvent :=
  let e := { event with
    sira_layers := classify_sira_layers combined,
    sira_metrics := classify_sira_metrics combined,
    severity := estimate_severity combined,
    industry := detect_industry combined }
  { e with medha_audit_angle := generate_audit_angle e }

/-- The `normalize` helper inside `deduplicate`: lower-case, drop every
character outside `[a-z0-9\s]`, trim surrounding whitespace. -/
def normalizeTitle (title : String) : List Char :=
  let kept := (lowerText title).filter
    (fun c => ('a' ≤ c && c ≤ 'z') || ('0' ≤ c && c ≤ '9') || isSpaceCh c)
  ((kept.dropWhile isSpaceCh).reverse.dropWhile isSpaceCh).reverse

/-- Python `str.split()` with no argument: split on whitespace runs,
discarding empty pieces. -/
def splitWs (l : List Char) : List (List Char) :=
  (l.splitOnP isSpaceCh).filter (fun w => !w.isEmpty)

/-- The word set of a normalized title: `set(normalize(t).split())`. -/
def titleWordSet (t : String) : Finset (List Char) := (splitWs (normalizeTitle t)).toFinset

/-- The word-overlap ratio `len(words_a & words_b) / min(len(words_a), len(words_b))`
computed by `is_similar`, as an exact rational (the Python float comparison
against the literal `0.6` agrees with the exact rational comparison against
`3/5` for all realistic word-set sizes). -/
def overlapRatio (a b : String) : ℚ :=
  (((titleWordSet a ∩ titleWordSet b).card : ℚ)) /
    ((min (titleWordSet a).card (titleWordSet b).card : ℕ) : ℚ)

/-- The `is_similar` helper inside `deduplicate`: not-similar when either
word set is empty, otherwise similar iff the overlap ratio exceeds `0.6`.
The threshold test is embedded in cross-multiplied integer form
`3 * min < 5 * |intersection|`, which is exactly `0.6 < ratio`
(see `is_similar_eq_true_iff`). -/
def is_similar (a b : String) : Bool :=
  if titleWordSet a = ∅ ∨ titleWordSet b = ∅ then false
  else decide (3 * min (titleWordSet a).card (titleWordSet b).card
                < 5 * (titleWordSet a ∩ titleWordSet b).card)

/-- The accumulating loop of `deduplicate`: `seen` is the list of already
kept titles; an event is dropped iff its title is similar to some seen
title, otherwise it is kept and its title appended to `seen`. -/
def dedupLoop : List String → List AIDisasterEvent → List AIDisasterEvent
  | _, [] => []
  | seen, e :: rest =>
    if seen.any (fun s => is_similar e.title s) then dedupLoop seen rest
    else e :: dedupLoop (seen ++ [e.title]) rest

/-- `deduplicate` of `lib_scanner.py`. -/
def deduplicate (events : List AIDisasterEvent) : List AIDisasterEvent :=
  dedupLoop [] events

/-- One Python dict update `d[k] = d.get(k, 0) + 1` on an insertion-ordered
association list: increment the existing entry in place, or append a new
entry with count 1. -/
def bumpCount : List (String × Nat) → String → List (String × Nat)
  | [], k => [(k, 1)]
  | (k', v) :: rest, k =>
    if k' = k then (k', v + 1) :: rest else (k', v) :: bumpCount rest k

/-- Sum of the counts of an association list: `sum(d.values())`. -/
def sumCounts (d : List (String × Nat)) : Nat := (d.map Prod.snd).sum

/-- The pre-seeded severity counts of `run_scan`. -/
def seedSeverity : List (String × Nat) :=
  [("Critical", 0), ("High", 0), ("Medium", 0), ("Low", 0)]

/-- The pre-seeded layer counts of `run_scan`: `{f"L{i}": 0 for i in range(1, 8)}`. -/
def seedLayers : List (String × Nat) :=
  [("L1", 0), ("L2", 0), ("L3", 0), ("L4", 0), ("L5", 0), ("L6", 0), ("L7", 0)]

/-- Stable insertion of an entry into a count list sorted by strictly
descending count: the entry goes after every earlier entry with a count
`≥` its own, as Python's stable `sorted(..., key=lambda x: -x[1])`. -/
def insertDesc (x : String × Nat) : List (String × Nat) → List (String × Nat)
  | [] => [x]
  | y :: ys => if y.2 < x.2 then x :: y :: ys else y :: insertDesc x ys

/-- Stable sort of a count list by descending count:
`dict(sorted(d.items(), key=lambda x: -x[1]))`. -/
def sortCountsDesc (l : List (String × Nat)) : List (String × Nat) :=
  l.foldl (fun acc x => insertDesc x acc) []

/-- The severity rank `sev_order` of `run_scan`, with default 4. -/
def sev_order (s : String) : Nat :=
  if s = "Critical" then 0
  else if s = "High" then 1
  else if s = "Medium" then 2
  else if s = "Low" then 3
  else 4

/-- Stable insertion of an event into a list sorted by ascending severity
rank. -/
def insertBySev (x : AIDisasterEvent) : List AIDisasterEvent → List AIDisasterEvent
  | [] => [x]
  | y :: ys => if sev_order x.severity < sev_order y.severity then x :: y :: ys
    else y :: insertBySev x ys

/-- Stable sort of the event list by severity rank:
`events.sort(key=lambda e: sev_order.get(e["severity"], 4))`. -/
def sortBySeverity (l : List AIDisasterEvent) : List AIDisasterEvent :=
  l.foldl (fun acc x => insertBySev x acc) []

/-- The aggregate record returned by `run_scan` (its pure fields; the scan
date, the `days` parameter and the two static catalog echoes are omitted). -/
structure AggregateResult where
  total : Nat
  severity_counts : List (String × Nat)
  layer_counts : List (String × Nat)
  industry_counts : List (String × Nat)
  metric_counts : List (String × Nat)
  events : List AIDisasterEvent
  deriving DecidableEq, Repr

/-- The pure pipeline of `run_scan` (lines 383-417 of `lib_scanner.py`),
taking the already-fetched event list: deduplicate, count severities,
layers, industries and metrics over the unique events (severity and layer
counts pre-seeded with zeros), sort the industry/metric counts by
descending count, and sort the events by severity rank. -/
def run_scan_pipeline (all_events : List AIDisasterEvent) : AggregateResult :=
  let events := deduplicate all_events
  let severity_counts := events.foldl (fun d e => bumpCount d e.severity) seedSeverity
  let layer_counts := events.foldl (fun d e => e.sira_layers.foldl bumpCount d) seedLayers
  let industry_counts := events.foldl (fun d e => bumpCount d e.industry) []
  let metric_counts := events.foldl (fun d e => e.sira_metrics.foldl bumpCount d) []
  { total := events.length,
    severity_counts := severity_counts,
    layer_counts := layer_counts,
    industry_counts := sortCountsDesc industry_counts,
    metric_counts := sortCountsDesc metric_counts,
    events := sortBySeverity events }

/-- Freshness invariant of the dedup loop: processed in order from the
accumulated `seen` titles, every event of the list is dissimilar to all
titles seen before it. -/
def freshFrom : List String → List AIDisasterEvent → Prop
  | _, [] => True
  | seen, e :: rest =>
    seen.any (fun s => is_similar e.title s) = false ∧
      freshFrom (seen ++ [e.title]) rest

/-- First input title of the end-to-end scenario of the spec. -/
def c1TitleA : String := "AI chatbot sued for giving wrong medical advice"

/-- Second input title of the end-to-end scenario of the spec. -/
def c1TitleB : String := "AI chatbot sued over wrong medical advice given to patient"

/-- First scenario document. -/
def c1DocA : AIDisasterEvent :=
  { title := c1TitleA, source := "feed-a", url := "", published := "2026-01-01", summary := "" }

/-- Second scenario document. -/
def c1DocB : AIDisasterEvent :=
  { title := c1TitleB, source := "feed-b", url := "", published := "2026-01-02", summary := "" }

/-- A two-letter word (characters `base + i / 10` and `'a' + i % 10`),
used to build titles with exactly prescribed word-overlap ratios. -/
def pairWord (base : Nat) (i : Nat) : List Char :=
  [Char.ofNat (base + i / 10), Char.ofNat (97 + i % 10)]

/-- A title of 100 distinct two-letter words. -/
def bigTitleX : String :=
  String.mk (List.intercalate [' '] ((List.range 100).map (pairWord 97)))

/-- A title of 100 distinct two-letter words sharing exactly 61 words with
`bigTitleX`, so that the word-overlap ratio is exactly `0.61`. -/
def bigTitleY : String :=
  String.mk
    (List.intercalate [' ']
      (((List.range 61).map (pairWord 97)) ++ ((List.range 39).map (pairWord 107))))

/-- Sample classified document (for concrete instantiations). -/
def sampleDocHigh : AIDisasterEvent :=
  { title := "chatbot lawsuit headline", source := "s1", url := "", published := "",
    summary := "", sira_layers := ["L5"], sira_metrics := ["MG"],
    severity := "High", industry := "Tech" }

/-- Second sample classified document, with a dissimilar title. -/
def sampleDocMedium : AIDisasterEvent :=
  { title := "robot vacuum stuck again", source := "s2", url := "", published := "",
    summary := "", sira_layers := ["L4", "L6"], sira_metrics := ["HR"],
    severity := "Medium", industry := "Retail" }

/-- Two documents equal in `sira_layers`/`sira_metrics` but different in
every other field. -/
def sameLabelsDocA : AIDisasterEvent :=
  { title := "first headline", source := "alpha", url := "u1", published := "2026-01-01",
    summary := "one summary", sira_layers := ["L6"], sira_metrics := ["HR", "MG"],
    severity := "Critical", industry := "Healthcare" }

/-- Counterpart of `sameLabelsDocA` with the same labels only. -/
def sameLabelsDocB : AIDisasterEvent :=
  { title := "second headline", source := "beta", url := "u2", published := "2026-02-02",
    summary := "another summary", sira_layers := ["L6"], sira_metrics := ["HR", "MG"],
    severity := "Low", industry := "Finance" }

-- ============================================================
-- Helper lemmas
-- ============================================================

lemma is_similar_eq_true_iff (a b : String) :
    is_similar a b = true ↔
      titleWordSet a ≠ ∅ ∧ titleWordSet b ≠ ∅ ∧ (3 : ℚ) / 5 < overlapRatio a b := by
  unfold is_similar overlapRatio
  by_cases h : titleWordSet a = ∅ ∨ titleWordSet b = ∅
  · rw [if_pos h]
    constructor
    · intro hf; exact absurd hf (by simp)
    · rintro ⟨ha, hb, _⟩
      rcases h with h | h
      · exact absurd h ha
      · exact absurd h hb
  · push_neg at h
    obtain ⟨ha, hb⟩ := h
    rw [if_neg (by tauto), decide_eq_true_eq]
    have hma : 0 < (titleWordSet a).card :=
      Finset.card_pos.mpr (Finset.nonempty_iff_ne_empty.mpr ha)
    have hmb : 0 < (titleWordSet b).card :=
      Finset.card_pos.mpr (Finset.nonempty_iff_ne_empty.mpr hb)
    have hm : (0 : ℚ) < ((min (titleWordSet a).card (titleWordSet b).card : ℕ) : ℚ) := by
      exact_mod_cast Nat.lt_min.mpr ⟨hma, hmb⟩
    rw [div_lt_div_iff₀ (by norm_num) hm,
      mul_comm (((titleWordSet a ∩ titleWordSet b).card : ℕ) : ℚ) (5 : ℚ)]
    constructor
    · intro hlt
      exact ⟨ha, hb, by exact_mod_cast hlt⟩
    · rintro ⟨-, -, hlt⟩
      exact_mod_cast hlt

lemma overlapRatio_comm (a b : String) : overlapRatio a b = overlapRatio b a := by
  unfold overlapRatio
  rw [Finset.inter_comm, Nat.min_comm]

lemma is_similar_eq_false_cases (a b : String) (h : is_similar a b = false) :
    titleWordSet a = ∅ ∨ titleWordSet b = ∅ ∨ overlapRatio a b ≤ 3 / 5 := by
  by_contra hc
  push_neg at hc
  obtain ⟨ha, hb, hr⟩ := hc
  have := (is_similar_eq_true_iff a b).mpr ⟨ha, hb, hr⟩
  rw [h] at this
  exact absurd this (by simp)

lemma freshFrom_dedupLoop (l : List AIDisasterEvent) :
    ∀ seen, freshFrom seen (dedupLoop seen l) := by
  induction l with
  | nil => intro seen; exact trivial
  | cons e rest ih =>
    intro seen
    cases h : seen.any (fun s => is_similar e.title s) with
    | true => simpa [dedupLoop, h] using ih seen
    | false =>
      simp only [dedupLoop, h, Bool.false_eq_true, if_false, freshFrom]
      exact ⟨trivial, ih (seen ++ [e.title])⟩

lemma dedupLoop_of_freshFrom (l : List AIDisasterEvent) :
    ∀ seen, freshFrom seen l → dedupLoop seen l = l := by
  induction l with
  | nil => intro seen _; rfl
  | cons e rest ih =>
    intro seen hf
    simp only [freshFrom] at hf
    obtain ⟨h1, h2⟩ := hf
    simp only [dedupLoop, h1, Bool.false_eq_true, if_false]
    rw [ih (seen ++ [e.title]) h2]

lemma freshFrom_pairwise (l : List AIDisasterEvent) :
    ∀ seen, freshFrom seen l →
      (∀ e ∈ l, ∀ s ∈ seen, is_similar e.title s = false) ∧
        l.Pairwise (fun a b => is_similar b.title a.title = false) := by
  induction l with
  | nil => intro seen _; exact ⟨by simp, List.Pairwise.nil⟩
  | cons e rest ih =>
    intro seen hf
    simp only [freshFrom] at hf
    obtain ⟨h1, h2⟩ := hf
    obtain ⟨hseen, hpair⟩ := ih (seen ++ [e.title]) h2
    constructor
    · intro x hx s hs
      rcases List.mem_cons.mp hx with rfl | hx
      · have := List.any_eq_false.mp h1 s hs
        simpa using this
      · exact hseen x hx s (List.mem_append_left _ hs)
    · refine List.Pairwise.cons ?_ hpair
      intro b hb
      exact hseen b hb e.title (List.mem_append_right _ (List.mem_singleton.mpr rfl))

lemma sumCounts_bumpCount (d : List (String × Nat)) (k : String) :
    sumCounts (bumpCount d k) = sumCounts d + 1 := by
  induction d with
  | nil => rfl
  | cons p rest ih =>
    obtain ⟨k', v⟩ := p
    by_cases h : k' = k
    · simp only [bumpCount, h, if_true, sumCounts, List.map_cons, List.sum_cons]
      omega
    · simp only [bumpCount, h, if_false, sumCounts, List.map_cons, List.sum_cons] at ih ⊢
      omega

lemma sumCounts_foldl_severity (l : List AIDisasterEvent) :
    ∀ d, sumCounts (l.foldl (fun d e => bumpCount d e.severity) d) = sumCounts d + l.length := by
  induction l with
  | nil => intro d; simp
  | cons e rest ih =>
    intro d
    simp only [List.foldl_cons, List.length_cons]
    rw [ih (bumpCount d e.severity), sumCounts_bumpCount]
    omega

lemma find?_eq_of_first {α : Type} (p : α → Bool) :
    ∀ (l : List α) (i : Nat) (h : i < l.length),
      p (l.get ⟨i, h⟩) = true →
      (∀ j (hj : j < i), p (l.get ⟨j, Nat.lt_trans hj h⟩) = false) →
      l.find? p = some (l.get ⟨i, h⟩)
  | [], i, h => absurd h (Nat.not_lt_zero i)
  | x :: xs, 0, h => fun hp _ => by
      simp only [List.get] at hp ⊢
      exact List.find?_cons_of_pos _ hp
  | x :: xs, i + 1, h => fun hp hprev => by
      have hx : p x = false := by simpa using hprev 0 (Nat.succ_pos i)
      rw [List.find?_cons_of_neg _ (by simp [hx])]
      have hlen : i < xs.length := Nat.lt_of_succ_lt_succ h
      have hp' : p (xs.get ⟨i, hlen⟩) = true := by simpa using hp
      have hprev' : ∀ j (hj : j < i), p (xs.get ⟨j, Nat.lt_trans hj hlen⟩) = false := by
        intro j hj
        simpa using hprev (j + 1) (Nat.succ_lt_succ hj)
      simpa using find?_eq_of_first p xs i hlen hp' hprev'

-- ============================================================
-- Claim theorems
-- ============================================================

/-- C1 (counterexample): the end-to-end scenario as stated in the spec is
false on the code: for the two scenario titles, deduplication does keep only
the first document, but the first title's layer classification does not
contain `L6` (nor `L4`) — no L6 or L4 pattern matches the title text. -/
theorem c1_scenario_counterexample :
    ¬ (deduplicate [c1DocA, c1DocB] = [c1DocA] ∧
        "L6" ∈ classify_sira_layers c1TitleA ∧
        "L4" ∈ classify_sira_layers c1TitleA ∧
        estimate_severity c1TitleA = "High" ∧
        detect_industry c1TitleA = "Healthcare") := by
  decide

/-- C1 (amended): for the two scenario titles, deduplication keeps only the
first document, and the first title's text classifies to exactly the layer
list `["L5"]` (the `chatbot ... sued` application-layer signal; neither `L6`
nor `L4` matches), severity `High`, industry `Healthcare`. -/
theorem c1_scenario_amended :
    deduplicate [c1DocA, c1DocB] = [c1DocA] ∧
    classify_sira_layers c1TitleA = ["L5"] ∧
    "L6" ∉ classify_sira_layers c1TitleA ∧
    "L4" ∉ classify_sira_layers c1TitleA ∧
    estimate_severity c1TitleA = "High" ∧
    detect_industry c1TitleA = "Healthcare" := by
  decide

/-- C2: the deduplicator's similarity test holds exactly when both
normalized titles have a non-empty word set and the word-overlap ratio
`|intersection| / min(|A|, |B|)` strictly exceeds `0.6`; consequently a
pair at ratio exactly `0.6` is never similar, a pair at ratio `0.61` is
similar, and a pair with an empty word set is never similar. -/
theorem c2_similarity_threshold :
    (∀ a b : String, is_similar a b = true ↔
        titleWordSet a ≠ ∅ ∧ titleWordSet b ≠ ∅ ∧ (3 : ℚ) / 5 < overlapRatio a b) ∧
    (∀ a b : String, overlapRatio a b = 3 / 5 → is_similar a b = false) ∧
    (∀ a b : String, overlapRatio a b = 61 / 100 → is_similar a b = true) ∧
    (∀ a b : String, titleWordSet a = ∅ ∨ titleWordSet b = ∅ → is_similar a b = false) := by
  refine ⟨is_similar_eq_true_iff, ?_, ?_, ?_⟩
  · intro a b hr
    cases hval : is_similar a b with
    | false => rfl
    | true =>
      have := ((is_similar_eq_true_iff a b).mp hval).2.2
      rw [hr] at this
      exact absurd this (lt_irrefl _)
  · intro a b hr
    have hza : titleWordSet a ≠ ∅ := by
      intro he
      rw [overlapRatio, he, Finset.empty_inter] at hr
      simp at hr
      exact absurd hr (by norm_num)
    have hzb : titleWordSet b ≠ ∅ := by
      intro he
      rw [overlapRatio, he, Finset.inter_empty] at hr
      simp at hr
      exact absurd hr (by norm_num)
    exact (is_similar_eq_true_iff a b).mpr ⟨hza, hzb, by rw [hr]; norm_num⟩
  · intro a b h
    unfold is_similar
    rw [if_pos h]

set_option maxRecDepth 40000 in
/-- C2 witness: the titles `"aa bb cc dd ee"` / `"aa bb cc xx yy"` have
overlap ratio exactly `3/5 = 0.6` and are not merged; the two 100-word
titles `bigTitleX` / `bigTitleY` have ratio exactly `61/100 = 0.61` and are
merged; an empty title is never merged. -/
theorem c2_similarity_threshold_witness :
    is_similar "aa bb cc dd ee" "aa bb cc xx yy" = false ∧
    is_similar bigTitleX bigTitleY = true ∧
    is_similar "" "hello" = false := by
  refine ⟨?_, ?_, ?_⟩
  · refine c2_similarity_threshold.2.1 _ _ ?_
    have h1 : (titleWordSet "aa bb cc dd ee" ∩ titleWordSet "aa bb cc xx yy").card = 3 := by
      decide
    have h2 : min (titleWordSet "aa bb cc dd ee").card (titleWordSet "aa bb cc xx yy").card = 5 := by
      decide
    unfold overlapRatio
    rw [h1, h2]
    norm_num
  · refine c2_similarity_threshold.2.2.1 _ _ ?_
    have h1 : (titleWordSet bigTitleX ∩ titleWordSet bigTitleY).card = 61 := by decide
    have h2 : min (titleWordSet bigTitleX).card (titleWordSet bigTitleY).card = 100 := by decide
    unfold overlapRatio
    rw [h1, h2]
    norm_num
  · exact c2_similarity_threshold.2.2.2 _ _ (Or.inl (by decide))

/-- C3: `deduplicate` is idempotent. -/
theorem c3_deduplicate_idempotent (x : List AIDisasterEvent) :
    deduplicate (deduplicate x) = deduplicate x :=
  dedupLoop_of_freshFrom _ [] (freshFrom_dedupLoop x [])

/-- C4: for every input list whose documents carry one of the four
pre-seeded severity tiers, the aggregate satisfies
`sum(severity_counts.values()) == total == len(unique_documents)`. -/
theorem c4_severity_count_invariant (docs : List AIDisasterEvent)
    (h : ∀ e ∈ docs, e.severity = "Critical" ∨ e.severity = "High" ∨
      e.severity = "Medium" ∨ e.severity = "Low") :
    sumCounts (run_scan_pipeline docs).severity_counts = (run_scan_pipeline docs).total ∧
      (run_scan_pipeline docs).total = (deduplicate docs).length := by
  refine ⟨?_, rfl⟩
  show sumCounts ((deduplicate docs).foldl (fun d e => bumpCount d e.severity) seedSeverity) =
    (deduplicate docs).length
  rw [sumCounts_foldl_severity]
  norm_num [sumCounts, seedSeverity]

/-- C4 witness: the invariant at a concrete two-document input. -/
theorem c4_severity_count_invariant_witness :
    sumCounts (run_scan_pipeline [sampleDocHigh, sampleDocMedium]).severity_counts =
        (run_scan_pipeline [sampleDocHigh, sampleDocMedium]).total ∧
      (run_scan_pipeline [sampleDocHigh, sampleDocMedium]).total =
        (deduplicate [sampleDocHigh, sampleDocMedium]).length :=
  c4_severity_count_invariant [sampleDocHigh, sampleDocMedium] (by decide)

/-- C5: `estimate_severity` returns `Critical` whenever any Critical-tier
pattern matches, regardless of the other tiers, and returns `Low` when no
tier's patterns match. -/
theorem c5_severity_priority (text : String) :
    (critical_patterns.any (fun r => rsearch r (lowerText text)) = true →
      estimate_severity text = "Critical") ∧
    (critical_patterns.any (fun r => rsearch r (lowerText text)) = false →
      high_patterns.any (fun r => rsearch r (lowerText text)) = false →
      medium_patterns.any (fun r => rsearch r (lowerText text)) = false →
      estimate_severity text = "Low") := by
  constructor
  · intro h
    unfold estimate_severity
    simp [h]
  · intro h1 h2 h3
    unfold estimate_severity
    simp [h1, h2, h3]

/-- C5 witness: `"a death caused by a wrong answer"` matches both a
Critical pattern (`death`) and a Medium pattern (`wrong`), and is
classified `Critical`; `"hello"` matches no tier and is classified
`Low`. -/
theorem c5_severity_priority_witness :
    critical_patterns.any (fun r => rsearch r (lowerText "a death caused by a wrong answer")) = true ∧
    medium_patterns.any (fun r => rsearch r (lowerText "a death caused by a wrong answer")) = true ∧
    estimate_severity "a death caused by a wrong answer" = "Critical" ∧
    estimate_severity "hello" = "Low" :=
  ⟨by decide, by decide,
    (c5_severity_priority "a death caused by a wrong answer").1 (by decide),
    (c5_severity_priority "hello").2 (by decide) (by decide) (by decide)⟩

/-- C6: layer and metric classification always return a non-empty list, and
return exactly `["L4"]` respectively `["MG"]` when no pattern of the
corresponding catalog matches. -/
theorem c6_classification_nonempty (text : String) :
    (classify_sira_layers text ≠ [] ∧ classify_sira_metrics text ≠ []) ∧
    ((∀ entry ∈ LAYER_SIGNALS, entryMatches (lowerText text) entry = false) →
      classify_sira_layers text = ["L4"]) ∧
    ((∀ entry ∈ METRIC_SIGNALS, entryMatches (lowerText text) entry = false) →
      classify_sira_metrics text = ["MG"]) := by
  refine ⟨⟨?_, ?_⟩, ?_, ?_⟩
  · unfold classify_sira_layers
    by_cases h : (LAYER_SIGNALS.filter (entryMatches (lowerText text))).map Prod.fst = [] <;>
      simp [h]
  · unfold classify_sira_metrics
    by_cases h : (METRIC_SIGNALS.filter (entryMatches (lowerText text))).map Prod.fst = [] <;>
      simp [h]
  · intro hm
    have hf : LAYER_SIGNALS.filter (entryMatches (lowerText text)) = [] := by
      rw [List.filter_eq_nil_iff]
      intro a ha
      simp [hm a ha]
    unfold classify_sira_layers
    simp [hf]
  · intro hm
    have hf : METRIC_SIGNALS.filter (entryMatches (lowerText text)) = [] := by
      rw [List.filter_eq_nil_iff]
      intro a ha
      simp [hm a ha]
    unfold classify_sira_metrics
    simp [hf]

/-- C6 witness: the empty text matches no pattern and gets the default
labels, which are non-empty. -/
theorem c6_classification_nonempty_witness :
    (classify_sira_layers "" ≠ [] ∧ classify_sira_metrics "" ≠ []) ∧
    classify_sira_layers "" = ["L4"] ∧ classify_sira_metrics "" = ["MG"] :=
  ⟨(c6_classification_nonempty "").1,
    (c6_classification_nonempty "").2.1 (by decide),
    (c6_classification_nonempty "").2.2 (by decide)⟩

/-- C7: `detect_industry` returns the first industry, in the declared
catalog order, one of whose patterns matches, and the catch-all
`"General/Cross-Industry"` when no industry matches. -/
theorem c7_industry_first_match :
    (∀ text : String,
      (∀ entry ∈ INDUSTRY_SIGNALS, entryMatches (lowerText text) entry = false) →
        detect_industry text = "General/Cross-Industry") ∧
    (∀ (text : String) (i : Nat) (h : i < INDUSTRY_SIGNALS.length),
      entryMatches (lowerText text) (INDUSTRY_SIGNALS.get ⟨i, h⟩) = true →
      (∀ j (hj : j < i),
        entryMatches (lowerText text) (INDUSTRY_SIGNALS.get ⟨j, Nat.lt_trans hj h⟩) = false) →
      detect_industry text = (INDUSTRY_SIGNALS.get ⟨i, h⟩).1) := by
  constructor
  · intro text hm
    have hnone : INDUSTRY_SIGNALS.find? (entryMatches (lowerText text)) = none :=
      List.find?_eq_none.mpr (fun x hx => by simp [hm x hx])
    simp only [detect_industry, hnone]
  · intro text i h hp hprev
    have hsome := find?_eq_of_first (entryMatches (lowerText text)) INDUSTRY_SIGNALS i h hp hprev
    simp only [detect_industry, hsome]

/-- C7 witness: `"bank court"` matches both Finance (declared second) and
Legal (declared fourth) but no earlier industry, so the result is
`"Finance"`, the industry declared earlier. -/
theorem c7_industry_first_match_witness :
    detect_industry "bank court" = "Finance" ∧
    entryMatches (lowerText "bank court") (INDUSTRY_SIGNALS.get ⟨3, by decide⟩) = true :=
  ⟨c7_industry_first_match.2 "bank court" 1 (by decide) (by decide) (by decide),
    by decide⟩

/-- C8: aggregating the empty document list yields total 0, the four
severity keys and seven layer keys all present with count 0, and empty
industry and metric count mappings. -/
theorem c8_empty_aggregate :
    run_scan_pipeline [] =
      { total := 0,
        severity_counts := [("Critical", 0), ("High", 0), ("Medium", 0), ("Low", 0)],
        layer_counts := [("L1", 0), ("L2", 0), ("L3", 0), ("L4", 0), ("L5", 0), ("L6", 0), ("L7", 0)],
        industry_counts := [],
        metric_counts := [],
        events := [] } := by
  rfl

/-- C9: `generate_audit_angle` depends only on the `sira_layers` and
`sira_metrics` fields of the event. -/
theorem c9_audit_angle_depends_only_on_labels (e1 e2 : AIDisasterEvent)
    (h1 : e1.sira_layers = e2.sira_layers) (h2 : e1.sira_metrics = e2.sira_metrics) :
    generate_audit_angle e1 = generate_audit_angle e2 := by
  unfold generate_audit_angle
  rw [h1, h2]

/-- C9 witness: two documents equal in labels but different in title,
summary, severity and industry get the same audit angle. -/
theorem c9_audit_angle_depends_only_on_labels_witness :
    generate_audit_angle sameLabelsDocA = generate_audit_angle sameLabelsDocB :=
  c9_audit_angle_depends_only_on_labels sameLabelsDocA sameLabelsDocB rfl rfl

/-- C10: the output of `deduplicate` is pairwise non-duplicate: any two
distinct surviving documents have an empty normalized word set on one side
or a word-overlap ratio of at most `0.6`. -/
theorem c10_survivors_pairwise_dissimilar (x : List AIDisasterEvent) :
    (deduplicate x).Pairwise
      (fun a b => titleWordSet a.title = ∅ ∨ titleWordSet b.title = ∅ ∨
        overlapRatio a.title b.title ≤ 3 / 5) := by
  have hp := (freshFrom_pairwise (dedupLoop [] x) [] (freshFrom_dedupLoop x [])).2
  refine List.Pairwise.imp ?_ hp
  intro a b h
  rcases is_similar_eq_false_cases b.title a.title h with h1 | h2 | h3
  · exact Or.inr (Or.inl h1)
  · exact Or.inl h2
  · exact Or.inr (Or.inr (by rw [overlapRatio_comm]; exact h3))
